import Mathlib

/-!
CoachBot AI (`app.py`): shallow embedding and verification.

This file embeds the pure logic of the single-file Streamlit application
`app.py` (class `CoachBotAI`, the plan cache in `display_results`, and the
startup model-probing loop in `CoachBotAI.__init__`) and proves the
testable properties of the specification against it.

Modelling conventions:
* The Python dict `user_data` becomes the structure `UserData`; a key that
  may be absent from the dict is an `Option` field (`none` = key absent).
* Python `user_data[k]` (raising `KeyError` when absent) becomes
  `require k field : Except String _`; `user_data.get(k, d)` becomes
  `field.getD d`.
* The external call `model.generate_content prompt` is modelled by an
  oracle value `resp : Option String`: `none` stands for an absent/falsy
  response object, `some t` for a response whose `.text` is `t`.  The code
  treats `none` and `some ""` identically (raises "Empty response from
  model").
* Each generating method returns `Except String String × Nat`; the `Nat`
  counts the generation-client calls the method performed.
* The session cache `st.session_state.generated_plans` is an association
  list `List (String × String)`; Python dict assignment is modelled by
  prepending, lookup by first match.
-/

set_option autoImplicit false
set_option maxRecDepth 80000

deriving instance DecidableEq for Except

namespace CoachBot

/-- The `user_data` dict built by `display_sidebar`.  Every field is an
`Option`: `none` means the key is absent from the dict (Python `KeyError`
on subscript access). -/
structure UserData where
  sport : Option String := none
  position : Option String := none
  age : Option Nat := none
  gender : Option String := none
  height : Option String := none
  weight : Option String := none
  experience : Option Nat := none
  training_days : Option Nat := none
  fitness_level : Option String := none
  goals : Option (List String) := none
  current_injury : Option String := none
  injury_duration : Option String := none
  limitations : Option String := none
  dietary_restrictions : Option (List String) := none
  rare_allergies : Option String := none
  competition_level : Option String := none
  deriving DecidableEq, Repr

/-- Python `user_data[name]`: yields the value, or raises `KeyError name`
when the key is absent. -/
def require {α : Type} (name : String) (field : Option α) : Except String α :=
  match field with
  | some v => Except.ok v
  | none => Except.error name

/-- Python `s.upper()`: uppercase every character. -/
def py_upper (s : String) : String := ⟨s.data.map Char.toUpper⟩

/-- Python `s.strip()`: drop leading and trailing whitespace. -/
def py_strip (s : String) : String :=
  ⟨((s.data.dropWhile Char.isWhitespace).reverse.dropWhile Char.isWhitespace).reverse⟩

/-- The f-string template of `_generate_normal_plan` (lines 177–210 of
`app.py`), with the interpolated expressions as parameters. -/
def normal_plan_text (sport position : String) (age experience training_days : Nat)
    (goals : List String) (fitness_level : String) : String :=
  ("
            Create a COMPLETE 4-week training program for:
            
            SPORT: " ++ py_upper sport ++ "
            POSITION: " ++ position ++ "
            AGE: " ++ toString age ++ " years
            EXPERIENCE: " ++ toString experience ++ " years
            TRAINING DAYS: " ++ toString training_days ++ "/week
            GOALS: " ++ String.intercalate ", " goals ++ "
            FITNESS LEVEL: " ++ fitness_level ++ "
            
            The program MUST include:
            
            WEEK 1-2: BASE BUILDING
            - Sport-specific skill drills
            - Strength foundation
            - Aerobic conditioning
            - Mobility work
            
            WEEK 3-4: INTENSIFICATION
            - Power development
            - High-intensity intervals
            - Technical refinement
            - Mental preparation
            
            For EACH week provide:
            1. Daily workout schedule
            2. Specific exercises with sets/reps
            3. Recovery protocols
            4. Nutrition timing advice
            5. Progress tracking metrics
            
            Make it SPECIFIC to " ++ sport ++ " " ++ position ++ ".
            ")

/-- `_generate_normal_plan`: read the interpolated fields from the dict
(in f-string order; the first absent key raises) and fill the template. -/
def normal_plan_prompt (u : UserData) : Except String String := do
  let sport ← require "sport" u.sport
  let position ← require "position" u.position
  let age ← require "age" u.age
  let experience ← require "experience" u.experience
  let training_days ← require "training_days" u.training_days
  let goals ← require "goals" u.goals
  let fitness_level ← require "fitness_level" u.fitness_level
  pure (normal_plan_text sport position age experience training_days goals fitness_level)

/-- The f-string template of `_generate_injury_plan` (lines 234–272 of
`app.py`), with the interpolated expressions as parameters
(`injury_duration` and `limitations` arrive already defaulted by
`dict.get`). -/
def injury_plan_text (sport position current_injury injury_duration limitations : String)
    (age : Nat) : String :=
  ("
            Create a SAFE, injury-modified training program for:
            
            SPORT: " ++ py_upper sport ++ "
            POSITION: " ++ position ++ "
            INJURY: " ++ current_injury ++ "
            INJURY DURATION: " ++ injury_duration ++ "
            LIMITATIONS: " ++ limitations ++ "
            AGE: " ++ toString age ++ " years
            
            IMPORTANT SAFETY RULES:
            1. DO NOT recommend exercises that could worsen " ++ current_injury ++ "
            2. Focus on rehabilitation and safe alternatives
            3. Include gradual progression
            4. Add warning signs to watch for
            
            Create a 3-PHASE RECOVERY PROGRAM:
            
            PHASE 1 (Week 1-2): REHABILITATION
            - Pain management
            - Range of motion
            - Very light activity
            
            PHASE 2 (Week 3-4): MODIFIED TRAINING
            - Sport-specific movements at reduced intensity
            - Strength without aggravating injury
            - Controlled progression
            
            PHASE 3 (Week 5-6): RETURN PREPARATION
            - Sport-specific drills
            - Gradual intensity increase
            - Performance testing
            
            For each phase provide:
            1. Daily exercise plan
            2. Modifications for " ++ sport ++ "
            3. Progression criteria
            4. Safety precautions
            ")

/-- `_generate_injury_plan`: read the interpolated fields (with the
`dict.get` defaults `Recent` and `Pain during activity`) and fill the
template. -/
def injury_plan_prompt (u : UserData) : Except String String := do
  let sport ← require "sport" u.sport
  let position ← require "position" u.position
  let current_injury ← require "current_injury" u.current_injury
  let age ← require "age" u.age
  pure (injury_plan_text sport position current_injury
    (u.injury_duration.getD "Recent") (u.limitations.getD "Pain during activity") age)

/-- The `dietary_info` string built at the start of
`generate_nutrition_plan` (lines 297–306).  Python truthiness of
`dict.get`: a missing key, `None`, an empty list and an empty string are
all falsy. -/
def dietary_info (u : UserData) : String :=
  let base := "DIETARY RESTRICTIONS:\n"
  let base :=
    match u.dietary_restrictions with
    | some (r :: rs) => base ++ String.join ((r :: rs).map (fun x => "- " ++ x ++ "\n"))
    | _ => base ++ "- No dietary restrictions\n"
  match u.rare_allergies with
  | some s => if s = "" then base else base ++ "\nRARE ALLERGIES:\n- " ++ s ++ "\n"
  | none => base

/-- The f-string template of `generate_nutrition_plan` (lines 308–353),
with the interpolated expressions as parameters (`weight` and `height`
arrive already defaulted by `dict.get`, `dietary` is the prebuilt
`dietary_info` block). -/
def nutrition_plan_text (sport position : String) (age : Nat) (weight height gender : String)
    (training_days : Nat) (goals : List String) (dietary : String) : String :=
  ("
            Create a DETAILED 7-day nutrition plan for a " ++ sport ++ " athlete.
            
            ATHLETE PROFILE:
            - Sport: " ++ sport ++ "
            - Position: " ++ position ++ "
            - Age: " ++ toString age ++ " years
            - Weight: " ++ weight ++ " kg
            - Height: " ++ height ++ " cm
            - Gender: " ++ gender ++ "
            - Training: " ++ toString training_days ++ " days/week
            - Goals: " ++ String.intercalate ", " goals ++ "
            
            " ++ dietary ++ "
            
            NUTRITIONAL REQUIREMENTS:
            - High protein for muscle repair
            - Complex carbs for sustained energy
            - Healthy fats for hormone balance
            - Adequate hydration
            
            Create a COMPLETE meal plan with:
            
            FOR EACH DAY (Monday-Sunday):
            1. BREAKFAST (with portion sizes)
            2. MID-MORNING SNACK
            3. LUNCH (main protein + carbs + veggies)
            4. PRE-WORKOUT SNACK (1-2 hours before training)
            5. POST-WORKOUT MEAL (within 30 minutes after)
            6. DINNER
            7. BEDTIME SNACK (if needed)
            
            Include for each meal:
            - Ingredients with quantities (grams/cups)
            - Simple cooking instructions
            - Macronutrient breakdown
            - Approximate calories
            
            ADDITIONAL SECTIONS:
            1. Weekly Grocery Shopping List
            2. Hydration Schedule (when & how much to drink)
            3. Meal Prep Tips
            4. Budget-Friendly Alternatives
            
            IMPORTANT: Strictly respect all dietary restrictions listed above.
            ")

/-- `generate_nutrition_plan`: build `dietary_info`, read the
interpolated fields (with the `dict.get` defaults `Not specified`) and
fill the template. -/
def nutrition_plan_prompt (u : UserData) : Except String String := do
  let info := dietary_info u
  let sport ← require "sport" u.sport
  let position ← require "position" u.position
  let age ← require "age" u.age
  let gender ← require "gender" u.gender
  let training_days ← require "training_days" u.training_days
  let goals ← require "goals" u.goals
  pure (nutrition_plan_text sport position age (u.weight.getD "Not specified")
    (u.height.getD "Not specified") gender training_days goals info)

/-- The f-string template of `generate_tactical_advice` (lines 377–396),
with the interpolated expressions as parameters. -/
def tactical_advice_text (sport position : String) (experience : Nat)
    (competition_level : String) : String :=
  ("
            Provide detailed tactical coaching advice for:
            
            SPORT: " ++ py_upper sport ++ "
            POSITION: " ++ position ++ "
            EXPERIENCE: " ++ toString experience ++ " years
            LEVEL: " ++ competition_level ++ "
            
            Cover these areas:
            1. Position-specific responsibilities
            2. Game reading and decision making
            3. Technical skill improvements
            4. Mental preparation strategies
            5. Match day routines
            6. Opponent analysis methods
            7. Communication with teammates
            8. Common mistakes to avoid
            
            Provide SPECIFIC examples for " ++ sport ++ " " ++ position ++ ".
            ")

/-- `generate_tactical_advice`: read the interpolated fields and fill
the template. -/
def tactical_advice_prompt (u : UserData) : Except String String := do
  let sport ← require "sport" u.sport
  let position ← require "position" u.position
  let experience ← require "experience" u.experience
  let competition_level ← require "competition_level" u.competition_level
  pure (tactical_advice_text sport position experience competition_level)

/-- The `self.model.generate_content(prompt, ...)` call followed by the
check `if not response or not response.text: raise Exception("Empty
response from model")`.  `resp` is the external oracle: `none` models an
absent/falsy response object, `some t` a response with text `t`. -/
def generate_content (resp : Option String) : Except String String :=
  match resp with
  | none => Except.error "Empty response from model"
  | some t => if t = "" then Except.error "Empty response from model" else Except.ok t

/-- The `except Exception as e: raise Exception(f"label{str(e)}")` wrapper
every generating method ends with: a success passes through, a failure is
re-raised with `label` prefixed.  The call count is unchanged. -/
def rewrap (label : String) (r : Except String String × Nat) : Except String String × Nat :=
  match r.1 with
  | Except.ok t => (Except.ok t, r.2)
  | Except.error e => (Except.error (label ++ e), r.2)

/-- `CoachBotAI._generate_normal_plan`: build the prompt (a `KeyError`
escapes before any client call), perform one generation call, then check
for an empty response; any failure is re-raised with the label of the method. -/
def generate_normal_plan (u : UserData) (resp : Option String) :
    Except String String × Nat :=
  rewrap "Failed to generate normal plan: "
    (match normal_plan_prompt u with
     | Except.error e => (Except.error e, 0)
     | Except.ok _ => (generate_content resp, 1))

/-- `CoachBotAI._generate_injury_plan`, same shape as the normal plan. -/
def generate_injury_plan (u : UserData) (resp : Option String) :
    Except String String × Nat :=
  rewrap "Failed to generate injury plan: "
    (match injury_plan_prompt u with
     | Except.error e => (Except.error e, 0)
     | Except.ok _ => (generate_content resp, 1))

/-- `CoachBotAI.generate_nutrition_plan`, same shape. -/
def generate_nutrition_plan (u : UserData) (resp : Option String) :
    Except String String × Nat :=
  rewrap "Failed to generate nutrition plan: "
    (match nutrition_plan_prompt u with
     | Except.error e => (Except.error e, 0)
     | Except.ok _ => (generate_content resp, 1))

/-- `CoachBotAI.generate_tactical_advice`, same shape. -/
def generate_tactical_advice (u : UserData) (resp : Option String) :
    Except String String × Nat :=
  rewrap "Failed to generate tactical advice: "
    (match tactical_advice_prompt u with
     | Except.error e => (Except.error e, 0)
     | Except.ok _ => (generate_content resp, 1))

/-- The validation list of `create_personalized_plan` (line 157), in
source order. -/
def required_fields : List String :=
  ["sport", "position", "age", "experience", "training_days", "goals",
   "fitness_level", "current_injury"]

/-- `field in user_data` for the keys the validation loop inspects. -/
def has_field (u : UserData) : String → Bool
  | "sport" => u.sport.isSome
  | "position" => u.position.isSome
  | "age" => u.age.isSome
  | "experience" => u.experience.isSome
  | "training_days" => u.training_days.isSome
  | "goals" => u.goals.isSome
  | "fitness_level" => u.fitness_level.isSome
  | "current_injury" => u.current_injury.isSome
  | _ => false

/-- The validation loop of `create_personalized_plan` (lines 157-160):
the first required field absent from `user_data`, if any. -/
def first_missing (u : UserData) : Option String :=
  required_fields.find? (fun f => !(has_field u f))

/-- `CoachBotAI.create_personalized_plan`: validate the eight required
fields (raising `KeyError(f"Missing required field: {field}")` on the
first missing one, before any client call), then dispatch on
`current_injury != "None"`; any failure is re-raised with the label
`Failed to create plan: `. -/
def create_personalized_plan (u : UserData) (resp : Option String) :
    Except String String × Nat :=
  match first_missing u with
  | some f => (Except.error ("Failed to create plan: Missing required field: " ++ f), 0)
  | none =>
    rewrap "Failed to create plan: "
      (match u.current_injury with
       | some inj =>
         if inj ≠ "None" then generate_injury_plan u resp
         else generate_normal_plan u resp
       | none => (Except.error "current_injury", 0))

/-! ## The plan cache of `display_results`

`st.session_state.generated_plans` is a dict from string keys to plan
text.  It is modelled as an association list (first match wins, dict
assignment is prepending). -/

/-- `key in generated_plans` / `generated_plans[key]`. -/
def lookup_plan : List (String × String) → String → Option String
  | [], _ => none
  | (k, v) :: rest, key => if k = key then some v else lookup_plan rest key

/-- The three tabs of `display_results`. -/
inductive PlanKind where
  | training
  | nutrition
  | tactical
  deriving DecidableEq, Repr

/-- The cache keys of `display_results` (lines 617, 647, 677):
`f"training_plan_{sport}_{position}"`, `f"nutrition_plan_{sport}_{position}"`,
`f"tactical_advice_{sport}_{position}"`. -/
def plan_key : PlanKind → String → String → String
  | PlanKind.training, s, p => "training_plan_" ++ s ++ "_" ++ p
  | PlanKind.nutrition, s, p => "nutrition_plan_" ++ s ++ "_" ++ p
  | PlanKind.tactical, s, p => "tactical_advice_" ++ s ++ "_" ++ p

/-- What one tab shows: rendered plan text, or a caught-and-displayed
error (`st.error(...)` inside the `except` branch). -/
inductive Outcome where
  | rendered : String → Outcome
  | failed : String → Outcome
  deriving DecidableEq, Repr

/-- The result of one tab of `display_results`: what was shown, the cache
afterwards, and how many generation-client calls were made. -/
structure TabResult where
  outcome : Outcome
  cache : List (String × String)
  genCalls : Nat
  deriving DecidableEq, Repr

/-- The per-tab body of `display_results`: if the key is cached, render
the cached text with no generation call (the generator is never invoked);
otherwise run the generator, and either store and render its text or
display the caught error leaving the cache unchanged. -/
def tab_step (cache : List (String × String)) (key : String)
    (gen : Except String String × Nat) : TabResult :=
  match lookup_plan cache key with
  | some t => ⟨Outcome.rendered t, cache, 0⟩
  | none =>
    match gen.1 with
    | Except.ok t => ⟨Outcome.rendered t, (key, t) :: cache, gen.2⟩
    | Except.error e => ⟨Outcome.failed e, cache, gen.2⟩

/-- Which generating method each tab of `display_results` invokes. -/
def run_generation : PlanKind → UserData → Option String → Except String String × Nat
  | PlanKind.training, u, r => create_personalized_plan u r
  | PlanKind.nutrition, u, r => generate_nutrition_plan u r
  | PlanKind.tactical, u, r => generate_tactical_advice u r

/-- One tab of `display_results` for plan kind `kind`: read `sport` and
`position` from the profile (a `KeyError` propagates out of
`display_results`), build the cache key, and run the tab body. -/
def display_tab (cache : List (String × String)) (kind : PlanKind)
    (u : UserData) (resp : Option String) : Except String TabResult := do
  let s ← require "sport" u.sport
  let p ← require "position" u.position
  pure (tab_step cache (plan_key kind s p) (run_generation kind u resp))

/-! ## Startup: credential check and model probing (`CoachBotAI.__init__`) -/

/-- The fixed ordered fallback list `model_attempts` (lines 99-108). -/
def model_attempts : List String :=
  ["gemini-pro",
   "models/gemini-pro",
   "gemini-1.5-pro",
   "models/gemini-1.5-pro",
   "gemini-1.5-flash",
   "models/gemini-1.5-flash",
   "gemini-1.0-pro",
   "models/gemini-1.0-pro"]

/-- `if test_response and test_response.text:` — the probe of one model
name succeeds when the probe call yields a truthy response object with a
non-empty text.  `probe` is the external oracle: `none` models an
exception or falsy response, `some t` a response with text `t`. -/
def probe_ok (probe : String → Option String) (m : String) : Bool :=
  match probe m with
  | some t => decide (t ≠ "")
  | none => false

/-- The probing loop (lines 113-137): try each candidate in order, keep
the first success, silently continue past failures.  Returns the chosen
model (if any) and the number of probe calls made. -/
def try_models (probe : String → Option String) : List String → Option String × Nat
  | [] => (none, 0)
  | m :: rest =>
    if probe_ok probe m then (some m, 1)
    else
      let r := try_models probe rest
      (r.1, r.2 + 1)

/-- `CoachBotAI.__init__`: check the credential (its absence or
blankness raises before any external call), then probe the fallback
list; raise `No working model found...` when every candidate fails.
`secrets` models `st.secrets` restricted to `GEMINI_API_KEY` (`none` =
key absent).  Returns the selected model name or the error, plus the
number of probe (generation) calls made. -/
def init_coach (secrets : Option String) (probe : String → Option String) :
    Except String String × Nat :=
  match secrets with
  | none =>
    (Except.error "GEMINI_API_KEY not found in Streamlit secrets. Please add it to .streamlit/secrets.toml", 0)
  | some api_key =>
    if api_key = "" || (py_strip api_key).length == 0 then
      (Except.error "GEMINI_API_KEY is empty in Streamlit secrets", 0)
    else
      match try_models probe model_attempts with
      | (some m, n) => (Except.ok m, n)
      | (none, n) => (Except.error "No working model found", n)

/-- What one run of `main` produced. -/
inductive MainOutcome where
  | noProfile
  | initFailed : String → MainOutcome
  | results : TabResult → MainOutcome
  | fatal : String → MainOutcome
  deriving DecidableEq, Repr

/-- One run of `main`, restricted to a single tab (`kind`): if there is a
profile or the generate button was pressed, construct `CoachBotAI` —
an initialization failure is caught, displayed and stops the run with the
cache untouched — and then run `display_results` (here: the given tab).
Returns the outcome, the cache afterwards, and the total number of
generation-client calls (probe calls included). -/
def main_step (secrets : Option String) (probe : String → Option String)
    (cache : List (String × String)) (u : UserData)
    (profile_nonempty generate_clicked : Bool) (kind : PlanKind)
    (resp : Option String) :
    MainOutcome × List (String × String) × Nat :=
  if profile_nonempty || generate_clicked then
    match init_coach secrets probe with
    | (Except.error e, n) => (MainOutcome.initFailed e, cache, n)
    | (Except.ok _, n) =>
      match display_tab cache kind u resp with
      | Except.ok tr => (MainOutcome.results tr, tr.cache, n + tr.genCalls)
      | Except.error e => (MainOutcome.fatal e, cache, n)
  else
    (MainOutcome.noProfile, cache, 0)

/-! ## Session state and the Prompt Builder viewed as a whole -/

/-- An entry of `st.session_state.error_log` (`log_error`). -/
structure ErrorEntry where
  timestamp : String
  message : String
  details : String
  deriving DecidableEq, Repr

/-- The pieces of `st.session_state` the application reads. -/
structure SessionState where
  user_profile : UserData
  generated_plans : List (String × String)
  error_log : List ErrorEntry
  debug_mode : Bool
  deriving DecidableEq, Repr

/-- A plan-kind discriminator for the four prompt templates. -/
inductive PromptKind where
  | normal
  | injury
  | nutrition
  | tactical
  deriving DecidableEq, Repr

/-- The Prompt Builder: which template a prompt kind selects. -/
def build_prompt : PromptKind → UserData → Except String String
  | PromptKind.normal, u => normal_plan_prompt u
  | PromptKind.injury, u => injury_plan_prompt u
  | PromptKind.nutrition, u => nutrition_plan_prompt u
  | PromptKind.tactical, u => tactical_advice_prompt u

/-- The Prompt Builder as invoked from a session: it reads only
`st.session_state.user_profile`. -/
def session_prompt (k : PromptKind) (st : SessionState) : Except String String :=
  build_prompt k st.user_profile

/-- `pat` occurs as a contiguous substring of `s`. -/
abbrev ContainsSub (s pat : String) : Prop := pat.data <:+: s.data

/-- Executable substring scan: does `pat` occur in `s` as a contiguous
run?  (Kernel-evaluation-friendly companion of `ContainsSub`.) -/
def infix_scan (pat : List Char) : List Char → Bool
  | [] => pat.isEmpty
  | c :: rest => pat.isPrefixOf (c :: rest) || infix_scan pat rest

/-- The cache key `display_results` derives from the profile for a tab:
the f-string of the kind name, the sport and the position. -/
def profile_plan_key (kind : PlanKind) (u : UserData) : Except String String := do
  let s ← require "sport" u.sport
  let p ← require "position" u.position
  pure (plan_key kind s p)

/-- A profile as `display_sidebar` always produces it: every
unconditional key of the dict built at lines 525-540 is present. -/
abbrev Complete (u : UserData) : Prop :=
  u.sport.isSome ∧ u.position.isSome ∧ u.age.isSome ∧ u.gender.isSome ∧
  u.height.isSome ∧ u.weight.isSome ∧ u.experience.isSome ∧
  u.training_days.isSome ∧ u.fitness_level.isSome ∧ u.goals.isSome ∧
  u.current_injury.isSome ∧ u.competition_level.isSome ∧
  u.dietary_restrictions.isSome

/-- A concrete healthy cricket batsman profile, as the sidebar builds it. -/
def sampleProfile : UserData :=
  { sport := some "cricket", position := some "Batsman", age := some 18,
    gender := some "Male", height := some "175", weight := some "65.5",
    experience := some 3, training_days := some 4,
    fitness_level := some "Intermediate",
    goals := some ["Strength", "Skill"],
    current_injury := some "None",
    dietary_restrictions := some [],
    competition_level := some "Club" }

/-- `sampleProfile` with a different weight (same sport and position). -/
def sampleProfileW : UserData := { sampleProfile with weight := some "80" }

/-- `sampleProfile` with a hamstring strain; the optional dict keys
`injury_duration` and `limitations` are absent. -/
def sampleInjured : UserData :=
  { sampleProfile with current_injury := some "Hamstring strain" }

/-- The injury-plan prompt the code produces for `sampleInjured`. -/
def sampleInjuredPrompt : String := ((injury_plan_prompt sampleInjured).toOption).getD ""

/-- An injured profile whose optional dict keys (`weight`, `height`,
`injury_duration`, `limitations`, `rare_allergies`) are all absent. -/
def sparseProfile : UserData :=
  { sport := some "cricket", position := some "Batsman", age := some 18,
    gender := some "Male", experience := some 3, training_days := some 4,
    fitness_level := some "Intermediate", goals := some ["Strength"],
    current_injury := some "Hamstring strain",
    dietary_restrictions := some [], competition_level := some "Club" }

/-- A probe oracle under which only `models/gemini-pro` (the second
candidate) answers the test prompt. -/
def probeSecond : String → Option String :=
  fun m => if m = "models/gemini-pro" then some "OK" else none

/-- A `user_data` dict holding only the `sport` key: the first missing
required field is `position`. -/
def incompleteProfile : UserData := { sport := some "cricket" }

/-! ## Helper lemmas -/

@[simp] theorem require_some {α : Type} (name : String) (v : α) :
    require name (some v) = Except.ok v := rfl

@[simp] theorem require_none {α : Type} (name : String) :
    require (α := α) name none = Except.error name := rfl

@[simp] theorem except_bind_ok {α β : Type} (a : α) (f : α → Except String β) :
    (Except.ok a >>= f : Except String β) = f a := rfl

@[simp] theorem except_bind_error {α β : Type} (e : String) (f : α → Except String β) :
    ((Except.error e : Except String α) >>= f : Except String β) = Except.error e := rfl

@[simp] theorem except_pure_eq {α : Type} (a : α) :
    (pure a : Except String α) = Except.ok a := rfl

theorem infix_skip {α : Type} (a : List α) {x b : List α} (h : x <:+: b) :
    x <:+: a ++ b := by
  obtain ⟨l, r, hlr⟩ := h
  exact ⟨a ++ l, r, by rw [← hlr]; simp [List.append_assoc]⟩

theorem infix_ext {α : Type} (rest : List α) {x a : List α} (h : x <:+: a) :
    x <:+: a ++ rest := by
  obtain ⟨l, r, hlr⟩ := h
  exact ⟨l, r ++ rest, by rw [← hlr]; simp [List.append_assoc]⟩

theorem infix_take2 {α : Type} (a b rest : List α) :
    (a ++ b) <:+: a ++ (b ++ rest) :=
  ⟨[], rest, by simp [List.append_assoc]⟩

theorem infix_seam {α : Type} {a n1 : List α} (pre : List α) {b rest : List α}
    (ha : a = pre ++ n1) : (n1 ++ b) <:+: a ++ (b ++ rest) := by
  subst ha
  exact ⟨pre, rest, by simp [List.append_assoc]⟩

/-- `infix_scan` decides the infix relation. -/
theorem infix_scan_iff (pat s : List Char) :
    infix_scan pat s = true ↔ pat <:+: s := by
  induction s with
  | nil =>
    simp [infix_scan, List.isEmpty_iff]
  | cons c rest ih =>
    rw [infix_scan, Bool.or_eq_true, List.isPrefixOf_iff_prefix, ih,
      List.infix_cons_iff]

/-- `List.find?` returns the first element satisfying the predicate. -/
theorem find?_first {α : Type} (p : α → Bool) (L : List α) (a : α)
    (h : L.find? p = some a) :
    p a = true ∧ ∃ l r, L = l ++ a :: r ∧ ∀ x ∈ l, p x = false := by
  induction L with
  | nil => simp [List.find?] at h
  | cons b bs ih =>
    by_cases hb : p b = true
    · rw [List.find?_cons_of_pos _ hb] at h
      obtain rfl : b = a := by injection h
      exact ⟨hb, [], bs, rfl, by simp⟩
    · rw [List.find?_cons_of_neg _ (by simpa using hb)] at h
      obtain ⟨hp, l, r, hL, hall⟩ := ih h
      refine ⟨hp, b :: l, r, by simp [hL], ?_⟩
      intro x hx
      rcases List.mem_cons.mp hx with rfl | hx
      · simpa using hb
      · exact hall x hx

/-- For a complete profile and a client that answers `t ≠ ""`, every
generating method succeeds with `t` after exactly one client call. -/
theorem run_generation_ok (kind : PlanKind) (u : UserData) (t : String)
    (hc : Complete u) (ht : t ≠ "") :
    run_generation kind u (some t) = (Except.ok t, 1) := by
  obtain ⟨hs, hp, ha, hg, hh, hw, he, htd, hf, hgo, hi, hcl, hd⟩ := hc
  obtain ⟨s, hs⟩ := Option.isSome_iff_exists.mp hs
  obtain ⟨p, hp⟩ := Option.isSome_iff_exists.mp hp
  obtain ⟨a, ha⟩ := Option.isSome_iff_exists.mp ha
  obtain ⟨g, hg⟩ := Option.isSome_iff_exists.mp hg
  obtain ⟨e, he⟩ := Option.isSome_iff_exists.mp he
  obtain ⟨td, htd⟩ := Option.isSome_iff_exists.mp htd
  obtain ⟨f, hf⟩ := Option.isSome_iff_exists.mp hf
  obtain ⟨go, hgo⟩ := Option.isSome_iff_exists.mp hgo
  obtain ⟨inj, hi⟩ := Option.isSome_iff_exists.mp hi
  obtain ⟨cl, hcl⟩ := Option.isSome_iff_exists.mp hcl
  cases kind with
  | training =>
    have hv : first_missing u = none := by
      simp [first_missing, required_fields, List.find?, has_field,
        hs, hp, ha, he, htd, hgo, hf, hi]
    by_cases hinj : inj = "None" <;>
      simp [run_generation, create_personalized_plan, hv, hi, hinj, rewrap,
        generate_injury_plan, generate_normal_plan, injury_plan_prompt, normal_plan_prompt,
        hs, hp, ha, he, htd, hgo, hf, generate_content, ht]
  | nutrition =>
    simp [run_generation, generate_nutrition_plan, nutrition_plan_prompt,
      hs, hp, ha, hg, htd, hgo, rewrap, generate_content, ht]
  | tactical =>
    simp [run_generation, generate_tactical_advice, tactical_advice_prompt,
      hs, hp, he, hcl, rewrap, generate_content, ht]

/-- For a complete profile and a client that reports an empty result,
every generating method raises after its one client call, and the error
message carries `Empty response from model`. -/
theorem run_generation_empty (kind : PlanKind) (u : UserData) (resp : Option String)
    (hc : Complete u) (hresp : resp = none ∨ resp = some "") :
    ∃ e, run_generation kind u resp = (Except.error e, 1) ∧
      ContainsSub e "Empty response from model" := by
  obtain ⟨hs, hp, ha, hg, hh, hw, he, htd, hf, hgo, hi, hcl, hd⟩ := hc
  obtain ⟨s, hs⟩ := Option.isSome_iff_exists.mp hs
  obtain ⟨p, hp⟩ := Option.isSome_iff_exists.mp hp
  obtain ⟨a, ha⟩ := Option.isSome_iff_exists.mp ha
  obtain ⟨g, hg⟩ := Option.isSome_iff_exists.mp hg
  obtain ⟨e, he⟩ := Option.isSome_iff_exists.mp he
  obtain ⟨td, htd⟩ := Option.isSome_iff_exists.mp htd
  obtain ⟨f, hf⟩ := Option.isSome_iff_exists.mp hf
  obtain ⟨go, hgo⟩ := Option.isSome_iff_exists.mp hgo
  obtain ⟨inj, hi⟩ := Option.isSome_iff_exists.mp hi
  obtain ⟨cl, hcl⟩ := Option.isSome_iff_exists.mp hcl
  have hgen : generate_content resp = Except.error "Empty response from model" := by
    rcases hresp with rfl | rfl <;> simp [generate_content]
  cases kind with
  | training =>
    have hv : first_missing u = none := by
      simp [first_missing, required_fields, List.find?, has_field,
        hs, hp, ha, he, htd, hgo, hf, hi]
    by_cases hinj : inj = "None"
    · refine ⟨"Failed to create plan: Failed to generate normal plan: Empty response from model",
        ?_, by decide⟩
      simp [run_generation, create_personalized_plan, hv, hi, hinj, rewrap,
        generate_normal_plan, normal_plan_prompt, hs, hp, ha, he, htd, hgo, hf, hgen]
    · refine ⟨"Failed to create plan: Failed to generate injury plan: Empty response from model",
        ?_, by decide⟩
      simp [run_generation, create_personalized_plan, hv, hi, hinj, rewrap,
        generate_injury_plan, injury_plan_prompt, hs, hp, ha, hgen]
  | nutrition =>
    refine ⟨"Failed to generate nutrition plan: Empty response from model", ?_, by decide⟩
    simp [run_generation, generate_nutrition_plan, nutrition_plan_prompt,
      hs, hp, ha, hg, htd, hgo, rewrap, hgen]
  | tactical =>
    refine ⟨"Failed to generate tactical advice: Empty response from model", ?_, by decide⟩
    simp [run_generation, generate_tactical_advice, tactical_advice_prompt,
      hs, hp, he, hcl, rewrap, hgen]

/-! ## The claims -/

/-- C1: for every plan kind and every complete Profile, a request on a
cache miss makes exactly one generation call and stores the returned
text under the key derived from the profile; a second request with any
profile yielding the same key (and any client oracle) makes zero
generation calls and renders exactly the stored text. -/
theorem C1_cache_single_generation (kind : PlanKind) (u u2 : UserData) (s p : String)
    (cache : List (String × String)) (t : String) (resp2 : Option String)
    (hc : Complete u)
    (hs : u.sport = some s) (hp : u.position = some p)
    (hs2 : u2.sport = some s) (hp2 : u2.position = some p)
    (ht : t ≠ "")
    (hmiss : lookup_plan cache (plan_key kind s p) = none) :
    display_tab cache kind u (some t)
        = Except.ok ⟨Outcome.rendered t, (plan_key kind s p, t) :: cache, 1⟩ ∧
    lookup_plan ((plan_key kind s p, t) :: cache) (plan_key kind s p) = some t ∧
    display_tab ((plan_key kind s p, t) :: cache) kind u2 resp2
        = Except.ok ⟨Outcome.rendered t, (plan_key kind s p, t) :: cache, 0⟩ := by
  have h1 := run_generation_ok kind u t hc ht
  refine ⟨?_, ?_, ?_⟩
  · simp [display_tab, hs, hp, tab_step, hmiss, h1]
  · simp [lookup_plan]
  · simp [display_tab, hs2, hp2, tab_step, lookup_plan]

theorem C1_witness :
    display_tab [] PlanKind.nutrition sampleProfile (some "MEALS")
        = Except.ok ⟨Outcome.rendered "MEALS",
            [(plan_key PlanKind.nutrition "cricket" "Batsman", "MEALS")], 1⟩ ∧
    lookup_plan [(plan_key PlanKind.nutrition "cricket" "Batsman", "MEALS")]
        (plan_key PlanKind.nutrition "cricket" "Batsman") = some "MEALS" ∧
    display_tab [(plan_key PlanKind.nutrition "cricket" "Batsman", "MEALS")]
        PlanKind.nutrition sampleProfileW none
        = Except.ok ⟨Outcome.rendered "MEALS",
            [(plan_key PlanKind.nutrition "cricket" "Batsman", "MEALS")], 0⟩ :=
  C1_cache_single_generation PlanKind.nutrition sampleProfile sampleProfileW "cricket" "Batsman"
    [] "MEALS" none (by decide) rfl rfl rfl rfl (by decide) rfl

/-- C2 (counterexample): the training cache key ignores the
current-injury field and the nutrition cache key ignores the weight
field — two profiles differing only there yield identical keys, so the
claimed key derivation (and the claimed inequality of keys) is false. -/
theorem C2_counterexample :
    (sampleProfile.current_injury ≠ sampleInjured.current_injury ∧
      profile_plan_key PlanKind.training sampleProfile
        = profile_plan_key PlanKind.training sampleInjured) ∧
    (sampleProfile.weight ≠ sampleProfileW.weight ∧
      profile_plan_key PlanKind.nutrition sampleProfile
        = profile_plan_key PlanKind.nutrition sampleProfileW) :=
  ⟨⟨by decide, by decide⟩, ⟨by decide, by decide⟩⟩

/-- C2 (amended): every cache key is derived from the sport and position
fields only — `training_plan_{sport}_{position}` and
`nutrition_plan_{sport}_{position}` — so any two profiles agreeing on
sport and position yield identical keys for every plan kind, whatever
their injury or weight. -/
theorem C2_amended_keys (kind : PlanKind) (u1 u2 : UserData) (s p : String)
    (hs1 : u1.sport = some s) (hp1 : u1.position = some p)
    (hs2 : u2.sport = some s) (hp2 : u2.position = some p) :
    profile_plan_key kind u1 = profile_plan_key kind u2 ∧
    profile_plan_key PlanKind.training u1
        = Except.ok ("training_plan_" ++ s ++ "_" ++ p) ∧
    profile_plan_key PlanKind.nutrition u1
        = Except.ok ("nutrition_plan_" ++ s ++ "_" ++ p) := by
  refine ⟨?_, ?_, ?_⟩ <;> simp [profile_plan_key, plan_key, hs1, hp1, hs2, hp2]

theorem C2_amended_witness :
    profile_plan_key PlanKind.training sampleProfile
        = profile_plan_key PlanKind.training sampleInjured ∧
    profile_plan_key PlanKind.training sampleProfile
        = Except.ok ("training_plan_" ++ "cricket" ++ "_" ++ "Batsman") ∧
    profile_plan_key PlanKind.nutrition sampleProfile
        = Except.ok ("nutrition_plan_" ++ "cricket" ++ "_" ++ "Batsman") :=
  C2_amended_keys PlanKind.training sampleProfile sampleInjured "cricket" "Batsman"
    rfl rfl rfl rfl

/-- C3: for every plan kind, a complete Profile and a client that
returns an empty result (no response object or empty text) on a cache
miss, the tab displays a caught failure mentioning
`Empty response from model`, the process does not crash (the tab still
produces an outcome), and the cache is unchanged — in particular no
empty text is stored under the key. -/
theorem C3_empty_response_failure (kind : PlanKind) (u : UserData) (s p : String)
    (cache : List (String × String)) (resp : Option String)
    (hc : Complete u)
    (hs : u.sport = some s) (hp : u.position = some p)
    (hresp : resp = none ∨ resp = some "")
    (hmiss : lookup_plan cache (plan_key kind s p) = none) :
    ∃ e, display_tab cache kind u resp
        = Except.ok ⟨Outcome.failed e, cache, 1⟩ ∧
      ContainsSub e "Empty response from model" ∧
      lookup_plan cache (plan_key kind s p) = none := by
  obtain ⟨e, he, hce⟩ := run_generation_empty kind u resp hc hresp
  exact ⟨e, by simp [display_tab, hs, hp, tab_step, hmiss, he], hce, hmiss⟩

theorem C3_witness :
    ∃ e, display_tab [] PlanKind.training sampleProfile (some "")
        = Except.ok ⟨Outcome.failed e, [], 1⟩ ∧
      ContainsSub e "Empty response from model" ∧
      lookup_plan [] (plan_key PlanKind.training "cricket" "Batsman") = none :=
  C3_empty_response_failure PlanKind.training sampleProfile "cricket" "Batsman" [] (some "")
    (by decide) rfl rfl (Or.inr rfl) rfl

/-- C4 (counterexample): for a profile missing the optional
`injury_duration` and `limitations` keys, the produced injury prompt
contains the `dict.get` defaults `Recent` and `Pain during activity` and
does not contain the placeholder `Not specified` anywhere, so the
claimed fixed placeholder `Not specified` for those two fields is
false. -/
theorem C4_counterexample :
    injury_plan_prompt sampleInjured = Except.ok sampleInjuredPrompt ∧
    sampleInjured.injury_duration = none ∧
    sampleInjured.limitations = none ∧
    ¬ ContainsSub sampleInjuredPrompt "Not specified" ∧
    ContainsSub sampleInjuredPrompt "INJURY DURATION: Recent" ∧
    ContainsSub sampleInjuredPrompt "LIMITATIONS: Pain during activity" :=
  ⟨rfl, rfl, rfl,
   fun h => absurd ((infix_scan_iff _ _).mpr h) (by decide),
   (infix_scan_iff _ _).mp (by decide),
   (infix_scan_iff _ _).mp (by decide)⟩

/-- C4 (amended): for every Profile missing an optional field the
Prompt Builder does not fail and substitutes a fixed default — `Not
specified` for the `weight` and `height` fields of the nutrition prompt,
`Recent` for `injury_duration` and `Pain during activity` for
`limitations` in the injury prompt. -/
theorem C4_amended_defaults (u : UserData) (s p g inj : String) (a td : Nat)
    (go : List String)
    (hs : u.sport = some s) (hp : u.position = some p) (ha : u.age = some a)
    (hg : u.gender = some g) (htd : u.training_days = some td)
    (hgo : u.goals = some go) (hi : u.current_injury = some inj)
    (hw : u.weight = none) (hh : u.height = none)
    (hdur : u.injury_duration = none) (hlim : u.limitations = none) :
    (∃ P, nutrition_plan_prompt u = Except.ok P ∧
      ContainsSub P "- Weight: Not specified kg" ∧
      ContainsSub P "- Height: Not specified cm") ∧
    (∃ P, injury_plan_prompt u = Except.ok P ∧
      ContainsSub P "INJURY DURATION: Recent" ∧
      ContainsSub P "LIMITATIONS: Pain during activity") := by
  constructor
  · refine ⟨nutrition_plan_text s p a "Not specified" "Not specified" g td go
      (dietary_info u), ?_, ?_, ?_⟩
    · simp [nutrition_plan_prompt, hs, hp, ha, hg, htd, hgo, hw, hh]
    · simp only [ContainsSub, nutrition_plan_text, String.data_append, List.append_assoc]
      apply infix_skip
      apply infix_skip
      apply infix_skip
      apply infix_skip
      apply infix_skip
      apply infix_skip
      apply infix_skip
      apply infix_skip
      rw [← List.append_assoc, ← List.append_assoc]
      apply infix_ext
      decide
    · simp only [ContainsSub, nutrition_plan_text, String.data_append, List.append_assoc]
      apply infix_skip
      apply infix_skip
      apply infix_skip
      apply infix_skip
      apply infix_skip
      apply infix_skip
      apply infix_skip
      apply infix_skip
      apply infix_skip
      apply infix_skip
      rw [← List.append_assoc, ← List.append_assoc]
      apply infix_ext
      decide
  · refine ⟨injury_plan_text s p inj "Recent" "Pain during activity" a, ?_, ?_, ?_⟩
    · simp [injury_plan_prompt, hs, hp, hi, ha, hdur, hlim]
    · simp only [ContainsSub, injury_plan_text, String.data_append, List.append_assoc]
      apply infix_skip
      apply infix_skip
      apply infix_skip
      apply infix_skip
      apply infix_skip
      apply infix_skip
      rw [← List.append_assoc, ← List.append_assoc]
      apply infix_ext
      decide
    · simp only [ContainsSub, injury_plan_text, String.data_append, List.append_assoc]
      apply infix_skip
      apply infix_skip
      apply infix_skip
      apply infix_skip
      apply infix_skip
      apply infix_skip
      apply infix_skip
      apply infix_skip
      rw [← List.append_assoc, ← List.append_assoc]
      apply infix_ext
      decide

theorem C4_witness :
    (∃ P, nutrition_plan_prompt sparseProfile = Except.ok P ∧
      ContainsSub P "- Weight: Not specified kg" ∧
      ContainsSub P "- Height: Not specified cm") ∧
    (∃ P, injury_plan_prompt sparseProfile = Except.ok P ∧
      ContainsSub P "INJURY DURATION: Recent" ∧
      ContainsSub P "LIMITATIONS: Pain during activity") :=
  C4_amended_defaults sparseProfile "cricket" "Batsman" "Male" "Hamstring strain" 18 4
    ["Strength"] rfl rfl rfl rfl rfl rfl rfl rfl rfl rfl rfl

/-- C5: for every Profile whose `current_injury` is not `None`,
`create_personalized_plan` dispatches to the injury plan, and the
instruction prompt handed to the generation client contains the
avoidance instruction with the injury name verbatim: `1. DO NOT
recommend exercises that could worsen ` followed by the injury. -/
theorem C5_injury_avoidance_prompt (u : UserData) (s p inj : String) (a : Nat)
    (resp : Option String)
    (hs : u.sport = some s) (hp : u.position = some p)
    (hi : u.current_injury = some inj) (hinj : inj ≠ "None") (ha : u.age = some a)
    (hv : first_missing u = none) :
    create_personalized_plan u resp
        = rewrap "Failed to create plan: " (generate_injury_plan u resp) ∧
    ∃ P, injury_plan_prompt u = Except.ok P ∧
      ContainsSub P ("1. DO NOT recommend exercises that could worsen " ++ inj) := by
  constructor
  · simp [create_personalized_plan, hv, hi, hinj]
  · refine ⟨injury_plan_text s p inj (u.injury_duration.getD "Recent")
      (u.limitations.getD "Pain during activity") a, ?_, ?_⟩
    · simp [injury_plan_prompt, hs, hp, hi, ha]
    · simp only [ContainsSub, injury_plan_text, String.data_append, List.append_assoc]
      apply infix_skip
      apply infix_skip
      apply infix_skip
      apply infix_skip
      apply infix_skip
      apply infix_skip
      apply infix_skip
      apply infix_skip
      apply infix_skip
      apply infix_skip
      apply infix_skip
      apply infix_skip
      exact infix_seam
        ((" years\n            \n            IMPORTANT SAFETY RULES:\n            ").data)
        (by decide)

theorem C5_witness :
    create_personalized_plan sampleInjured (some "X")
        = rewrap "Failed to create plan: " (generate_injury_plan sampleInjured (some "X")) ∧
    ∃ P, injury_plan_prompt sampleInjured = Except.ok P ∧
      ContainsSub P ("1. DO NOT recommend exercises that could worsen "
        ++ "Hamstring strain") :=
  C5_injury_avoidance_prompt sampleInjured "cricket" "Batsman" "Hamstring strain" 18
    (some "X") rfl rfl rfl (by decide) rfl (by decide)

/-- C6: for every Profile with sport `cricket`, position `Batsman` and no
current injury, the produced training prompt contains the literal
substrings `CRICKET`, `Batsman` and `4-week`. -/
theorem C6_training_prompt_literals (u : UserData) (age experience training_days : Nat)
    (goals : List String) (fitness_level : String)
    (hs : u.sport = some "cricket") (hp : u.position = some "Batsman")
    (hinj : u.current_injury = some "None")
    (ha : u.age = some age) (he : u.experience = some experience)
    (htd : u.training_days = some training_days) (hg : u.goals = some goals)
    (hf : u.fitness_level = some fitness_level) :
    ∃ P, normal_plan_prompt u = Except.ok P ∧
      ContainsSub P "CRICKET" ∧ ContainsSub P "Batsman" ∧ ContainsSub P "4-week" := by
  have _hinj := hinj
  refine ⟨normal_plan_text "cricket" "Batsman" age experience training_days goals
    fitness_level, by simp [normal_plan_prompt, hs, hp, ha, he, htd, hg, hf], ?_, ?_, ?_⟩
  · have hup : py_upper "cricket" = "CRICKET" := by decide
    unfold normal_plan_text
    rw [hup]
    simp only [ContainsSub, String.data_append, List.append_assoc]
    apply infix_skip
    apply infix_ext
    decide
  · unfold normal_plan_text
    simp only [ContainsSub, String.data_append, List.append_assoc]
    apply infix_skip
    apply infix_skip
    apply infix_skip
    apply infix_ext
    decide
  · unfold normal_plan_text
    simp only [ContainsSub, String.data_append, List.append_assoc]
    apply infix_ext
    decide

theorem C6_witness :
    ∃ P, normal_plan_prompt sampleProfile = Except.ok P ∧
      ContainsSub P "CRICKET" ∧ ContainsSub P "Batsman" ∧ ContainsSub P "4-week" :=
  C6_training_prompt_literals sampleProfile 18 3 4 ["Strength", "Skill"] "Intermediate"
    rfl rfl rfl rfl rfl rfl rfl rfl

/-- C7: when the `GEMINI_API_KEY` credential is absent or empty or
whitespace-only, `CoachBotAI.__init__` raises before any generation
(probe) call, `main` catches it and halts the run, and the plan cache is
untouched — no plan is generated or cached. -/
theorem C7_missing_credential_fatal (secrets : Option String)
    (probe : String → Option String) (cache : List (String × String))
    (u : UserData) (pn gc : Bool) (kind : PlanKind) (resp : Option String)
    (hbad : secrets = none ∨ ∃ k, secrets = some k ∧ py_strip k = "")
    (hrun : pn = true ∨ gc = true) :
    ∃ e, init_coach secrets probe = (Except.error e, 0) ∧
      main_step secrets probe cache u pn gc kind resp
        = (MainOutcome.initFailed e, cache, 0) := by
  have hinit : ∃ e, init_coach secrets probe = (Except.error e, 0) := by
    rcases hbad with rfl | ⟨k, rfl, hk⟩
    · exact ⟨_, rfl⟩
    · exact ⟨"GEMINI_API_KEY is empty in Streamlit secrets", by simp [init_coach, hk]⟩
  obtain ⟨e, he⟩ := hinit
  have hpg : (pn || gc) = true := by rcases hrun with rfl | rfl <;> simp
  exact ⟨e, he, by simp [main_step, hpg, he]⟩

theorem C7_witness :
    ∃ e, init_coach (some "   ") probeSecond = (Except.error e, 0) ∧
      main_step (some "   ") probeSecond [] sampleProfile true false PlanKind.training
          (some "X")
        = (MainOutcome.initFailed e, [], 0) :=
  C7_missing_credential_fatal (some "   ") probeSecond [] sampleProfile true false
    PlanKind.training (some "X") (Or.inr ⟨"   ", rfl, by decide⟩) (Or.inl rfl)

/-- The probing loop yields no model exactly when every candidate fails. -/
theorem try_models_none_iff (probe : String → Option String) (L : List String) :
    (try_models probe L).1 = none ↔ ∀ m ∈ L, probe_ok probe m = false := by
  induction L with
  | nil => simp [try_models]
  | cons m rest ih =>
    by_cases hm : probe_ok probe m <;> simp [try_models, hm, ih]

/-- The probing loop selects the first candidate whose probe succeeds. -/
theorem try_models_some (probe : String → Option String) (L : List String) (m : String)
    (h : (try_models probe L).1 = some m) :
    probe_ok probe m = true ∧
      ∃ l r, L = l ++ m :: r ∧ ∀ x ∈ l, probe_ok probe x = false := by
  induction L with
  | nil => simp [try_models] at h
  | cons b rest ih =>
    by_cases hb : probe_ok probe b
    · simp [try_models, hb] at h
      subst h
      exact ⟨hb, [], rest, rfl, by simp⟩
    · simp [try_models, hb] at h
      obtain ⟨hp, l, r, hL, hall⟩ := ih h
      refine ⟨hp, b :: l, r, by simp [hL], ?_⟩
      intro x hx
      rcases List.mem_cons.mp hx with rfl | hx
      · simpa using hb
      · exact hall x hx

/-- C8: `CoachBotAI.__init__` probes a fixed ordered list of eight model
identifiers starting with `gemini-pro`; with a valid credential it keeps
the first candidate whose probe answers with non-empty text, silently
passing over each failing candidate, and raises `No working model found`
exactly when every candidate fails. -/
theorem C8_model_fallback_probing (probe : String → Option String) :
    model_attempts.length = 8 ∧
    model_attempts.head? = some "gemini-pro" ∧
    (∀ api_key : String, ¬(api_key = "" ∨ (py_strip api_key).length = 0) →
      ((init_coach (some api_key) probe).1 = Except.error "No working model found"
        ↔ ∀ m ∈ model_attempts, probe_ok probe m = false)) ∧
    (∀ m, (try_models probe model_attempts).1 = some m →
      probe_ok probe m = true ∧
      ∃ l r, model_attempts = l ++ m :: r ∧ ∀ x ∈ l, probe_ok probe x = false) := by
  refine ⟨rfl, rfl, ?_, fun m h => try_models_some probe model_attempts m h⟩
  intro key hkey
  push_neg at hkey
  obtain ⟨hk1, hk2⟩ := hkey
  have hcond : ((key = "" : Bool) || ((py_strip key).length == 0)) = false := by
    simp [hk1, hk2]
  rcases htm : try_models probe model_attempts with ⟨o, n⟩
  cases o with
  | none =>
    rw [← try_models_none_iff probe model_attempts]
    simp [init_coach, hcond, htm]
  | some m =>
    have hsome : (try_models probe model_attempts).1 = some m := by rw [htm]
    obtain ⟨hpm, l, r, hL, _⟩ := try_models_some probe model_attempts m hsome
    simp only [init_coach, hcond, htm]
    constructor
    · intro hcontra
      exact absurd hcontra (by simp)
    · intro hall
      have hm_mem : m ∈ model_attempts := by rw [hL]; simp
      rw [hall m hm_mem] at hpm
      exact Bool.noConfusion hpm

theorem C8_witness :
    (((init_coach (some "AIzaKey") probeSecond).1 = Except.error "No working model found")
        ↔ ∀ m ∈ model_attempts, probe_ok probeSecond m = false) ∧
    (probe_ok probeSecond "models/gemini-pro" = true ∧
      ∃ l r, model_attempts = l ++ "models/gemini-pro" :: r ∧
        ∀ x ∈ l, probe_ok probeSecond x = false) :=
  ⟨(C8_model_fallback_probing probeSecond).2.2.1 "AIzaKey" (by decide),
   (C8_model_fallback_probing probeSecond).2.2.2 "models/gemini-pro" (by decide)⟩

/-- C9: the Prompt Builder is a pure function of the profile and prompt
kind — any two sessions whose profiles agree produce byte-identical
prompts for every prompt kind, whatever their caches, error logs or
debug flags. -/
theorem C9_prompt_deterministic (k : PromptKind) (s1 s2 : SessionState)
    (h : s1.user_profile = s2.user_profile) :
    session_prompt k s1 = session_prompt k s2 := by
  simp [session_prompt, h]

theorem C9_witness :
    session_prompt PromptKind.nutrition ⟨sampleProfile, [], [], false⟩
      = session_prompt PromptKind.nutrition
          ⟨sampleProfile, [("k", "v")], [⟨"2025-01-01 00:00:00", "m", "d"⟩], true⟩ :=
  C9_prompt_deterministic PromptKind.nutrition _ _ rfl

/-- C10: `create_personalized_plan` validates the eight required fields
in source order: if one is absent it raises `Failed to create plan:
Missing required field: f` for the first missing field `f` and performs
no generation call; if all eight are present validation passes and the
plan is generated with one call. -/
theorem C10_required_field_validation (u : UserData) (resp : Option String) :
    (∀ f, first_missing u = some f →
      has_field u f = false ∧
      (∃ l r, required_fields = l ++ f :: r ∧ ∀ x ∈ l, has_field u x = true) ∧
      create_personalized_plan u resp
        = (Except.error ("Failed to create plan: Missing required field: " ++ f), 0)) ∧
    (first_missing u = none →
      (∀ f ∈ required_fields, has_field u f = true) ∧
      ∀ t, resp = some t → t ≠ "" →
        create_personalized_plan u resp = (Except.ok t, 1)) := by
  constructor
  · intro f hf
    obtain ⟨hpf, l, r, hL, hall⟩ := find?_first _ _ _ hf
    refine ⟨by simpa using hpf, ⟨l, r, hL, ?_⟩, by simp [create_personalized_plan, hf]⟩
    intro x hx
    have := hall x hx
    simpa using this
  · intro h0
    have h1 : ∀ f ∈ required_fields, has_field u f = true := by
      intro f hfm
      have := List.find?_eq_none.mp h0 f hfm
      simpa using this
    refine ⟨h1, ?_⟩
    intro t hresp ht
    subst hresp
    obtain ⟨s, hs⟩ := Option.isSome_iff_exists.mp
      (h1 "sport" (by simp [required_fields]))
    obtain ⟨p, hp⟩ := Option.isSome_iff_exists.mp
      (h1 "position" (by simp [required_fields]))
    obtain ⟨a, ha⟩ := Option.isSome_iff_exists.mp
      (h1 "age" (by simp [required_fields]))
    obtain ⟨e, he⟩ := Option.isSome_iff_exists.mp
      (h1 "experience" (by simp [required_fields]))
    obtain ⟨td, htd⟩ := Option.isSome_iff_exists.mp
      (h1 "training_days" (by simp [required_fields]))
    obtain ⟨go, hgo⟩ := Option.isSome_iff_exists.mp
      (h1 "goals" (by simp [required_fields]))
    obtain ⟨f, hf⟩ := Option.isSome_iff_exists.mp
      (h1 "fitness_level" (by simp [required_fields]))
    obtain ⟨inj, hi⟩ := Option.isSome_iff_exists.mp
      (h1 "current_injury" (by simp [required_fields]))
    by_cases hinj : inj = "None" <;>
      simp [create_personalized_plan, h0, hi, hinj, rewrap,
        generate_injury_plan, generate_normal_plan, injury_plan_prompt, normal_plan_prompt,
        hs, hp, ha, he, htd, hgo, hf, generate_content, ht]

theorem C10_witness :
    (create_personalized_plan incompleteProfile (some "X")
        = (Except.error "Failed to create plan: Missing required field: position", 0)) ∧
    create_personalized_plan sampleProfile (some "PLAN") = (Except.ok "PLAN", 1) :=
  ⟨((C10_required_field_validation incompleteProfile (some "X")).1 "position"
      (by decide)).2.2,
   ((C10_required_field_validation sampleProfile (some "PLAN")).2 (by decide)).2
      "PLAN" rfl (by decide)⟩

end CoachBot
